import Mathlib

/-!
Verification of the fossil-media Conan recipe (src/conanfile.py).

The recipe is orchestration glue: it declares static package metadata,
defines a folder layout, generates a Meson toolchain, configures and builds
via Meson, fetches source with git, installs and copies headers into the
package folder, and declares consumer metadata.  We embed the class body
shallowly: class attributes become Lean constants, each method becomes a
function from an explicit recipe state to a new state together with a trace
of external effects (tool invocations, shell commands, file copies).
The Python class-body semantics (later definitions of the same method name
override earlier ones) is modelled by building the class method dictionary
by sequential insertion.
-/

namespace FossilMedia

/-- Static package metadata declared as class attributes at the top of the
recipe class body (src/conanfile.py lines 7-13). -/
structure PackageDescriptor where
  name : String
  version : String
  license : String
  author : String
  url : String
  description : String
  topics : List String
deriving DecidableEq, Repr

/-- The descriptor literally written in the recipe. -/
def fossilMediaDescriptor : PackageDescriptor :=
  { name := "fossil_media"
  , version := "0.1.1"
  , license := "MPL-2.0"
  , author := "Fossil Logic <michaelbrockus@gmail.com>"
  , url := "https://github.com/fossillogic/fossil-media"
  , description := "Fossil Media is a lightweight, portable data parsing and processing library written in pure C with zero external dependencies."
  , topics := ["c", "xml", "csv", "json", "cpp", "meson", "conan-recipe", "mesonbuild", "ninja-build"] }

/-- The options declaration: option name mapped to its allowed value domain
(line 16: options = curly shared : [True, False]). -/
def optionsDecl : List (String × List Bool) := [("shared", [true, false])]

/-- The default options declaration (line 17: default for shared is False). -/
def defaultOptions : List (String × Bool) := [("shared", false)]

/-- Value domain declared for a given option name. -/
def optionDomain (name : String) : Option (List Bool) :=
  (optionsDecl.find? (fun kv => kv.1 = name)).map (fun kv => kv.2)

/-- Declared default value for a given option name. -/
def optionDefault (name : String) : Option Bool :=
  (defaultOptions.find? (fun kv => kv.1 = name)).map (fun kv => kv.2)

/-- The folder layout assigned by layout(): self.folders.source and
self.folders.build. -/
structure Folders where
  source : String
  build : String
deriving DecidableEq, Repr

/-- The resolved build root: the build folder is relative to the source
root, so the full build path is source root, a path separator, build. -/
def buildRootPath (f : Folders) : String :=
  f.source ++ "/" ++ f.build

/-- External effects a recipe method can perform: Meson tool steps,
toolchain generation, shell commands (self.run), and glob file copies.
The copy destination is kept as the list of path components joined under
the package folder. -/
inductive Effect where
  | mesonConfigure : Effect
  | mesonBuild : Effect
  | mesonInstall : Effect
  | toolchainGenerate : Effect
  | run (cmd : String) : Effect
  | copyGlob (pattern : String) (srcDir : String) (dstDir : List String) : Effect
deriving DecidableEq, Repr

/-- The mutable state of a recipe object plus the file system slice the
recipe touches: the header files present under code/logic/fossil/media
(as paths relative to that directory) and the files present under the
package folder (as component lists relative to the package folder). -/
structure ConanState where
  descriptor : PackageDescriptor
  folders : Folders
  libs : List String
  includedirs : List String
  sourceHeaders : Finset String
  packageFiles : Finset (List String)
deriving DecidableEq

/-- The glob pattern of package(): a file matches the copy pattern
star-dot-h exactly when its name ends in the .h suffix, i.e. its last two
characters are a dot then h. -/
def matchesHeaderGlob (fname : String) : Bool :=
  match fname.data.reverse with
  | 'h' :: '.' :: _ => true
  | _ => false

/-- Destination components of a copied header inside the package folder:
os.path.join(package_folder, "include", "fossil", "media") plus the file. -/
def headerDest (fname : String) : List String :=
  ["include", "fossil", "media", fname]

/-- The destination directory components used by the copy in package(). -/
def headerDestDir : List String := ["include", "fossil", "media"]

/-- The source subdirectory of the header copy in package(). -/
def headerSrcDir : String := "code/logic/fossil/media"

/-- The set of package-folder files produced by the header copy of
package(), given the header files present in the source subdirectory. -/
def copiedHeaders (srcFiles : Finset String) : Finset (List String) :=
  (srcFiles.filter (fun f => matchesHeaderGlob f)).image headerDest

/-- Clone command of the FIRST source() definition (line 39):
git clone --branch v(version) --depth 1 (url). -/
def sourceCommandV1 (d : PackageDescriptor) : String :=
  "git clone --branch v" ++ d.version ++ " --depth 1 " ++ d.url

/-- Clone command of the SECOND source() definition (line 57):
git clone --branch v(version) (url), with no depth limit. -/
def sourceCommandV2 (d : PackageDescriptor) : String :=
  "git clone --branch v" ++ d.version ++ " " ++ d.url

/-- Splits a character list at a separator character, keeping empty
chunks, accumulating the current chunk in reverse. -/
def splitTokensAux (sep : Char) : List Char → List Char → List String
  | [], acc => [String.mk acc.reverse]
  | c :: rest, acc =>
    if c = sep then String.mk acc.reverse :: splitTokensAux sep rest []
    else splitTokensAux sep rest (c :: acc)

/-- Whitespace tokens of a shell command. -/
def tokenize (s : String) : List String :=
  splitTokensAux ' ' s.data []

/-- True when a shell command contains the git depth-limit flag as a
token. -/
def isDepthLimitedCmd (cmd : String) : Bool :=
  (tokenize cmd).contains "--depth"

/-- The token following a given flag in a whitespace-tokenised command. -/
def argAfterFlag (flag : String) : List String → Option String
  | [] => none
  | [_] => none
  | a :: b :: rest =>
    if a = flag then some b else argAfterFlag flag (b :: rest)

/-- The branch or tag targeted by a git clone command: the token after
the branch flag. -/
def cloneTagArg (cmd : String) : Option String :=
  argAfterFlag "--branch" (tokenize cmd)

namespace FossilMediaConan

/-- Method layout (lines 22-25): sets folders.source to the working
directory and folders.build to builddir, ignoring the prior state. -/
def layout (s : ConanState) : ConanState × List Effect :=
  ({ s with folders := { source := ".", build := "builddir" } }, [])

/-- Method generate (lines 27-30): builds a MesonToolchain for the recipe
and generates the toolchain files. -/
def generate (s : ConanState) : ConanState × List Effect :=
  (s, [Effect.toolchainGenerate])

/-- Outcomes of the external Meson tool invocations, supplied as an
oracle: each step either succeeds or raises an error (exit status). -/
structure MesonOutcome where
  configure : Except Nat Unit
  build : Except Nat Unit
deriving Repr

/-- Method build (lines 32-36): meson.configure() then meson.build().
A raised error propagates immediately: the second step only runs when the
first succeeded, and nothing is retried. -/
def build (m : MesonOutcome) (s : ConanState) :
    Except Nat ConanState × List Effect :=
  match m.configure with
  | Except.error e => (Except.error e, [Effect.mesonConfigure])
  | Except.ok _ =>
    match m.build with
    | Except.error e =>
        (Except.error e, [Effect.mesonConfigure, Effect.mesonBuild])
    | Except.ok _ =>
        (Except.ok s, [Effect.mesonConfigure, Effect.mesonBuild])

/-- The FIRST source() definition (lines 38-39): runs the depth-limited
clone command. -/
def sourceV1 (s : ConanState) : ConanState × List Effect :=
  (s, [Effect.run (sourceCommandV1 s.descriptor)])

/-- The SECOND source() definition (lines 56-57): runs the clone command
without the depth limit. -/
def sourceV2 (s : ConanState) : ConanState × List Effect :=
  (s, [Effect.run (sourceCommandV2 s.descriptor)])

/-- Method package (lines 41-49): meson.install() places the install file
set into the package folder, then copy places every header matching the
glob from code/logic/fossil/media under include/fossil/media. -/
def package (installFiles : Finset (List String)) (s : ConanState) :
    ConanState × List Effect :=
  let afterInstall := { s with packageFiles := s.packageFiles ∪ installFiles }
  ({ afterInstall with
      packageFiles := afterInstall.packageFiles ∪ copiedHeaders s.sourceHeaders },
   [Effect.mesonInstall, Effect.copyGlob "*.h" headerSrcDir headerDestDir])

/-- Method package_info (lines 51-54): sets cpp_info.libs and
cpp_info.includedirs to the literal lists written in the recipe. -/
def package_info (s : ConanState) : ConanState × List Effect :=
  ({ s with libs := ["fossil_media"], includedirs := ["include"] }, [])

end FossilMediaConan

/-- Tags naming the method definitions that appear in the class body, in
order of appearance, so that the Python class-dictionary semantics (later
definition of the same name wins) can be stated. -/
inductive MethodImpl where
  | layoutImpl : MethodImpl
  | generateImpl : MethodImpl
  | buildImpl : MethodImpl
  | sourceImplV1 : MethodImpl
  | packageImpl : MethodImpl
  | packageInfoImpl : MethodImpl
  | sourceImplV2 : MethodImpl
deriving DecidableEq, Repr

/-- The method definitions of the class body in their textual order.
The name source occurs twice: once at line 38 and once at line 56. -/
def classBody : List (String × MethodImpl) :=
  [ ("layout", MethodImpl.layoutImpl)
  , ("generate", MethodImpl.generateImpl)
  , ("build", MethodImpl.buildImpl)
  , ("source", MethodImpl.sourceImplV1)
  , ("package", MethodImpl.packageImpl)
  , ("package_info", MethodImpl.packageInfoImpl)
  , ("source", MethodImpl.sourceImplV2) ]

/-- Sequential binding into the class dictionary: a later definition of an
existing name replaces the earlier one. -/
def setMethod (d : List (String × MethodImpl)) (k : String) (v : MethodImpl) :
    List (String × MethodImpl) :=
  if d.any (fun kv => kv.1 = k) then
    d.map (fun kv => if kv.1 = k then (k, v) else kv)
  else
    d ++ [(k, v)]

/-- The class dictionary after executing the whole class body. -/
def classDict : List (String × MethodImpl) :=
  classBody.foldl (fun d kv => setMethod d kv.1 kv.2) []

/-- Method lookup on the finished class. -/
def lookupMethod (k : String) : Option MethodImpl :=
  (classDict.find? (fun kv => kv.1 = k)).map (fun kv => kv.2)

/-- The clone command the EFFECTIVE source() method runs, obtained by
dispatching the class-dictionary lookup of the name source. -/
def effectiveSourceCommand (d : PackageDescriptor) : Option String :=
  match lookupMethod "source" with
  | some MethodImpl.sourceImplV1 => some (sourceCommandV1 d)
  | some MethodImpl.sourceImplV2 => some (sourceCommandV2 d)
  | _ => none

/-- A concrete recipe state used to instantiate universally quantified
results. -/
def exampleState : ConanState :=
  { descriptor := fossilMediaDescriptor
  , folders := { source := "", build := "" }
  , libs := []
  , includedirs := []
  , sourceHeaders := {"fossil_media.h"}
  , packageFiles := ∅ }


/-! Helper lemmas shared by the claim theorems. -/

/-- The first clone command, regrouped so the branch argument is visibly
the literal tag v concatenated with the version. -/
theorem sourceCommandV1_shape (d : PackageDescriptor) :
    sourceCommandV1 d
      = "git clone --branch " ++ ("v" ++ d.version) ++ (" --depth 1 " ++ d.url) := by
  show "git clone --branch v" ++ d.version ++ " --depth 1 " ++ d.url = _
  rw [← String.append_assoc "git clone --branch " "v" d.version]
  rw [show ("git clone --branch " ++ "v" : String) = "git clone --branch v" from rfl]
  rw [String.append_assoc ("git clone --branch v" ++ d.version)]

/-- The second clone command, regrouped the same way; it has no depth
argument between the tag and the url. -/
theorem sourceCommandV2_shape (d : PackageDescriptor) :
    sourceCommandV2 d
      = "git clone --branch " ++ ("v" ++ d.version) ++ (" " ++ d.url) := by
  show "git clone --branch v" ++ d.version ++ " " ++ d.url = _
  rw [← String.append_assoc "git clone --branch " "v" d.version]
  rw [show ("git clone --branch " ++ "v" : String) = "git clone --branch v" from rfl]
  rw [String.append_assoc ("git clone --branch v" ++ d.version)]

/-- The two clone commands differ for every descriptor: their lengths
differ by the length of the depth argument. -/
theorem sourceCommand_v1_ne_v2 (d : PackageDescriptor) :
    sourceCommandV1 d ≠ sourceCommandV2 d := by
  intro h
  have hl := congrArg String.length h
  simp [sourceCommandV1, sourceCommandV2, String.length_append,
        show (" --depth 1 " : String).length = 11 from rfl,
        show (" " : String).length = 1 from rfl,
        show ("git clone --branch v" : String).length = 20 from rfl] at hl

/-- The class dictionary maps the name source to the second definition. -/
theorem lookupMethod_source :
    lookupMethod "source" = some MethodImpl.sourceImplV2 := by decide

/-- Dispatching the effective source() yields the second clone command. -/
theorem effectiveSourceCommand_eq (d : PackageDescriptor) :
    effectiveSourceCommand d = some (sourceCommandV2 d) := by
  unfold effectiveSourceCommand
  rw [lookupMethod_source]

/-- Concrete Meson outcome: both steps succeed. -/
def mesonAllOk : FossilMediaConan.MesonOutcome :=
  { configure := Except.ok (), build := Except.ok () }

/-- Concrete Meson outcome: configure fails with exit status 2. -/
def mesonConfigureFails : FossilMediaConan.MesonOutcome :=
  { configure := Except.error 2, build := Except.ok () }

/-! The claim theorems. -/

/-- C1 counterexample: the effective source() (the second definition,
which overrides the first) runs a clone command that is NOT depth-limited,
so the claim that every clone performed is depth-limited fails at the
recipe's own descriptor. -/
theorem c1_shallow_clone_counterexample :
    effectiveSourceCommand fossilMediaDescriptor
      = some (sourceCommandV2 fossilMediaDescriptor)
    ∧ isDepthLimitedCmd (sourceCommandV2 fossilMediaDescriptor) = false := by
  constructor
  · exact effectiveSourceCommand_eq fossilMediaDescriptor
  · decide

/-- C1 (amended): for every descriptor the FIRST source() definition
shallow-clones with history depth 1 and targets the tag v concatenated
with the version, while the EFFECTIVE source() (the second definition)
targets the same tag but performs the clone without the depth limit. -/
theorem c1_shallow_clone_amended (d : PackageDescriptor) :
    sourceCommandV1 d
      = "git clone --branch " ++ ("v" ++ d.version) ++ (" --depth 1 " ++ d.url)
    ∧ effectiveSourceCommand d = some (sourceCommandV2 d)
    ∧ sourceCommandV2 d
      = "git clone --branch " ++ ("v" ++ d.version) ++ (" " ++ d.url)
    ∧ isDepthLimitedCmd (sourceCommandV1 fossilMediaDescriptor) = true := by
  refine ⟨sourceCommandV1_shape d, effectiveSourceCommand_eq d,
          sourceCommandV2_shape d, by decide⟩

/-- C2: the class body defines source twice with the same name and
signature; the class dictionary resolves the name to the second
definition, so the effective source() runs the clone command without the
depth limit, and the two definitions are not equivalent. -/
theorem c2_second_definition_overrides (d : PackageDescriptor) :
    (classBody.filter (fun kv => kv.1 = "source")).length = 2
    ∧ lookupMethod "source" = some MethodImpl.sourceImplV2
    ∧ effectiveSourceCommand d = some (sourceCommandV2 d)
    ∧ isDepthLimitedCmd (sourceCommandV2 fossilMediaDescriptor) = false
    ∧ sourceCommandV1 d ≠ sourceCommandV2 d := by
  refine ⟨by decide, lookupMethod_source, effectiveSourceCommand_eq d,
          by decide, sourceCommand_v1_ne_v2 d⟩

/-- C3: both source() definitions target the branch argument literally
equal to v concatenated with the version; at the recipe's version 0.1.1
the tag is v0.1.1 in both clone commands. -/
theorem c3_tag_is_v_version (d : PackageDescriptor) :
    sourceCommandV1 d
      = "git clone --branch " ++ ("v" ++ d.version) ++ (" --depth 1 " ++ d.url)
    ∧ sourceCommandV2 d
      = "git clone --branch " ++ ("v" ++ d.version) ++ (" " ++ d.url)
    ∧ fossilMediaDescriptor.version = "0.1.1"
    ∧ cloneTagArg (sourceCommandV1 fossilMediaDescriptor) = some "v0.1.1"
    ∧ cloneTagArg (sourceCommandV2 fossilMediaDescriptor) = some "v0.1.1" := by
  refine ⟨sourceCommandV1_shape d, sourceCommandV2_shape d, rfl, by decide, by decide⟩

/-- C4: package() performs the Meson install step first and the header
copy second; after a run every source header matching the glob is present
at its destination under include/fossil/media; and running package()
twice yields the same package-folder file set. -/
theorem c4_package_headers_idempotent (inst : Finset (List String)) (s : ConanState) :
    (FossilMediaConan.package inst s).2
      = [Effect.mesonInstall, Effect.copyGlob "*.h" headerSrcDir headerDestDir]
    ∧ (∀ f, f ∈ s.sourceHeaders → matchesHeaderGlob f = true →
        headerDest f ∈ (FossilMediaConan.package inst s).1.packageFiles)
    ∧ (FossilMediaConan.package inst (FossilMediaConan.package inst s).1).1.packageFiles
      = (FossilMediaConan.package inst s).1.packageFiles := by
  refine ⟨rfl, ?_, ?_⟩
  · intro f hf hglob
    simp only [FossilMediaConan.package, Finset.mem_union]
    right
    exact Finset.mem_image_of_mem headerDest (Finset.mem_filter.mpr ⟨hf, hglob⟩)
  · ext p
    simp only [FossilMediaConan.package, Finset.mem_union]
    tauto

/-- C4 witness: at a concrete state holding one header file, the header
lands at its destination inside the package folder. -/
theorem c4_package_headers_idempotent_witness :
    headerDest "fossil_media.h"
      ∈ (FossilMediaConan.package ∅ exampleState).1.packageFiles :=
  (c4_package_headers_idempotent ∅ exampleState).2.1 "fossil_media.h"
    (by decide) (by decide)

/-- C5: layout() always sets the source root to the working directory and
the build folder to builddir, so the resolved build root is literally the
source root followed by /builddir, independent of the prior state. -/
theorem c5_layout_builddir (s t : ConanState) :
    (FossilMediaConan.layout s).1.folders.source = "."
    ∧ (FossilMediaConan.layout s).1.folders.build = "builddir"
    ∧ buildRootPath (FossilMediaConan.layout s).1.folders = "." ++ "/" ++ "builddir"
    ∧ (FossilMediaConan.layout s).1.folders = (FossilMediaConan.layout t).1.folders := by
  exact ⟨rfl, rfl, rfl, rfl⟩

/-- C6: package_info() sets the consumer library list to exactly one
entry, and that entry equals the descriptor name untransformed whenever
the loaded descriptor is the recipe's. -/
theorem c6_single_lib_equals_name (s : ConanState)
    (h : s.descriptor = fossilMediaDescriptor) :
    (FossilMediaConan.package_info s).1.libs = [s.descriptor.name]
    ∧ (FossilMediaConan.package_info s).1.libs.length = 1 := by
  rw [h]
  exact ⟨rfl, rfl⟩

/-- C6 witness: the property instantiated at a concrete state carrying
the recipe descriptor. -/
theorem c6_single_lib_equals_name_witness :
    (FossilMediaConan.package_info exampleState).1.libs
      = [exampleState.descriptor.name]
    ∧ (FossilMediaConan.package_info exampleState).1.libs.length = 1 :=
  c6_single_lib_equals_name exampleState rfl

/-- C7: build() runs configure exactly once and the build step at most
once; when configure succeeds the trace is exactly configure then build,
each once and in that order; a failing step propagates its error and the
build step never runs after a configure failure; nothing is retried. -/
theorem c7_configure_then_build (m : FossilMediaConan.MesonOutcome) (s : ConanState) :
    ((FossilMediaConan.build m s).2.count Effect.mesonConfigure = 1)
    ∧ ((FossilMediaConan.build m s).2.count Effect.mesonBuild ≤ 1)
    ∧ (m.configure = Except.ok () →
        (FossilMediaConan.build m s).2 = [Effect.mesonConfigure, Effect.mesonBuild])
    ∧ (∀ e, m.configure = Except.error e →
        (FossilMediaConan.build m s).1 = Except.error e
        ∧ Effect.mesonBuild ∉ (FossilMediaConan.build m s).2)
    ∧ (∀ e, m.configure = Except.ok () → m.build = Except.error e →
        (FossilMediaConan.build m s).1 = Except.error e)
    ∧ (m.configure = Except.ok () → m.build = Except.ok () →
        (FossilMediaConan.build m s).1 = Except.ok s) := by
  obtain ⟨mc, mb⟩ := m
  cases mc <;> cases mb <;>
    simp_all [FossilMediaConan.build, List.count_cons, List.count_nil]

/-- C7 witness: with both steps succeeding the trace is configure then
build; with configure failing at exit status 2 the error propagates. -/
theorem c7_configure_then_build_witness :
    (FossilMediaConan.build mesonAllOk exampleState).2
      = [Effect.mesonConfigure, Effect.mesonBuild]
    ∧ (FossilMediaConan.build mesonConfigureFails exampleState).1 = Except.error 2 :=
  ⟨(c7_configure_then_build mesonAllOk exampleState).2.2.1 rfl,
   ((c7_configure_then_build mesonConfigureFails exampleState).2.2.2.1 2 rfl).1⟩

/-- C8: the option shared has value domain exactly true and false with
default false, and shared is the only declared option. -/
theorem c8_shared_only_option :
    optionDomain "shared" = some [true, false]
    ∧ (∀ b : Bool, b ∈ [true, false])
    ∧ optionDefault "shared" = some false
    ∧ optionsDecl.map (fun kv => kv.1) = ["shared"]
    ∧ optionsDecl.length = 1 := by decide

/-- C9: no lifecycle method mutates the package descriptor: layout,
generate, build (on success), both source definitions, package and
package_info all leave the descriptor component of the state unchanged. -/
theorem c9_descriptor_never_mutated (s : ConanState)
    (m : FossilMediaConan.MesonOutcome) (inst : Finset (List String)) :
    (FossilMediaConan.layout s).1.descriptor = s.descriptor
    ∧ (FossilMediaConan.generate s).1.descriptor = s.descriptor
    ∧ (∀ t, (FossilMediaConan.build m s).1 = Except.ok t → t.descriptor = s.descriptor)
    ∧ (FossilMediaConan.sourceV1 s).1.descriptor = s.descriptor
    ∧ (FossilMediaConan.sourceV2 s).1.descriptor = s.descriptor
    ∧ (FossilMediaConan.package inst s).1.descriptor = s.descriptor
    ∧ (FossilMediaConan.package_info s).1.descriptor = s.descriptor := by
  refine ⟨rfl, rfl, ?_, rfl, rfl, rfl, rfl⟩
  intro t ht
  obtain ⟨mc, mb⟩ := m
  cases mc <;> cases mb <;> simp_all [FossilMediaConan.build]

/-- C9 witness: a successful build run returns the state it was given,
hence with its descriptor intact. -/
theorem c9_descriptor_never_mutated_witness :
    exampleState.descriptor = exampleState.descriptor :=
  (c9_descriptor_never_mutated exampleState mesonAllOk ∅).2.2.1 exampleState rfl

/-- C10: the declared consumer include-directory list is exactly the
single path include; every header copied by package() has include as its
first path component under the package folder, and the copied set is
contained in the package-folder files after a run, so every copied header
is reachable through the declared include path. -/
theorem c10_headers_under_includedir (s : ConanState) (inst : Finset (List String)) :
    (FossilMediaConan.package_info s).1.includedirs = ["include"]
    ∧ headerDestDir.head? = some "include"
    ∧ (∀ p, p ∈ copiedHeaders s.sourceHeaders → p.head? = some "include")
    ∧ copiedHeaders s.sourceHeaders ⊆ (FossilMediaConan.package inst s).1.packageFiles := by
  refine ⟨rfl, rfl, ?_, ?_⟩
  · intro p hp
    obtain ⟨f, _, rfl⟩ := Finset.mem_image.mp hp
    rfl
  · intro p hp
    simp only [FossilMediaConan.package, Finset.mem_union]
    right
    exact hp

/-- C10 witness: the concrete copied header sits under the include
component. -/
theorem c10_headers_under_includedir_witness :
    (headerDest "fossil_media.h").head? = some "include" :=
  (c10_headers_under_includedir exampleState ∅).2.2.1
    (headerDest "fossil_media.h") (by decide)

end FossilMedia
